import Mathlib

/-!
Verification of the outbound campaign dialer
(src/backend/campaign_dialer_service.py) against its natural-language
specification.  The Python source is shallowly embedded: pure helpers become
Lean functions, the per-contact dialing task and the call monitor become
explicit state-passing functions, and the bounded-concurrency scheduler
becomes a small-step transition system.  Stubbed collaborator seams
(persistence lookup, DNC registry, telephony provider) are passed in as
explicit arguments, matching the collaborator interfaces of the spec.
-/

namespace Dialara

/-- Campaign settings, embedding the CampaignSettings dataclass.  The source
stores calling_hours_start and calling_hours_end as "HH:MM" strings and
parses them with strptime at every compliance check; here the two fields
model the parsed values as minutes since local midnight. -/
structure CampaignSettings where
  maxConcurrentCalls : Nat
  retryAttempts : Nat
  retryDelayMinutes : Nat
  callTimeoutSeconds : Nat
  respectDoNotCall : Bool
  complianceMode : String
  timeZone : String
  callingHoursStart : Nat
  callingHoursEnd : Nat
  excludeWeekends : Bool
deriving DecidableEq

/-- A raw contact-list entry as received by create_campaign: the fields are
optional because the source reads them with dict.get. -/
structure RawContact where
  phone_number : Option String
  name : Option String
  email : Option String
  custom_variables : Option (List (String × String))
deriving DecidableEq

/-- A validated contact as produced by _process_contact_list.  The source
keeps status as a free string; only "pending" is ever written by the code. -/
structure Contact where
  phone_number : String
  name : String
  email : String
  custom_variables : List (String × String)
  attempts : Nat
  last_attempt : Option Nat
  status : String
deriving DecidableEq

/-- The digit characters of a string in order, embedding
filter(str.isdigit, phone) from _clean_phone_number. -/
def digitsOf (s : String) : List Char :=
  s.toList.filter Char.isDigit

/-- Embedding of _clean_phone_number: empty input is rejected; all non-digit
characters are stripped; a 10-digit number gets "1" prepended; an 11-digit
number starting with "1" is kept; anything else is rejected; the result is
"+" followed by the digits. -/
def clean_phone_number (phone : String) : Option String :=
  if phone = "" then
    none
  else if (digitsOf phone).length = 10 then
    some (String.mk ('+' :: '1' :: digitsOf phone))
  else if (digitsOf phone).length = 11 ∧ (digitsOf phone).head? = some '1' then
    some (String.mk ('+' :: digitsOf phone))
  else
    none

/-- The per-entry step of _process_contact_list: an entry with a missing or
empty phone number is skipped, the phone is normalized, and a surviving
contact starts with attempts = 0, last_attempt = None, status = "pending". -/
def processEntry (c : RawContact) : Option Contact :=
  match c.phone_number with
  | none => none
  | some p =>
      if p = "" then
        none
      else
        match clean_phone_number p with
        | none => none
        | some phone =>
            some { phone_number := phone
                   name := c.name.getD ""
                   email := c.email.getD ""
                   custom_variables := c.custom_variables.getD []
                   attempts := 0
                   last_attempt := none
                   status := "pending" }

/-- Embedding of _process_contact_list: the loop over entries that appends
each surviving processed contact in order. -/
def process_contact_list (contacts : List RawContact) : List Contact :=
  contacts.filterMap processEntry

/-- The server-local clock instant read by datetime.now() in the source:
Python weekday (Monday = 0 .. Sunday = 6) and the time of day in minutes
since midnight. -/
structure LocalNow where
  weekday : Nat
  minutes : Nat
deriving DecidableEq

/-- Embedding of _is_calling_hours_compliant: the source compares the
server-local time of day against the parsed calling-hours bounds, returning
false up front on weekends when exclude_weekends is set.  The source reads
datetime.now() directly and never consults settings.time_zone (its own
comment calls this a simplified implementation). -/
def is_calling_hours_compliant (s : CampaignSettings) (now : LocalNow) : Bool :=
  if s.excludeWeekends ∧ 5 ≤ now.weekday then
    false
  else
    decide (s.callingHoursStart ≤ now.minutes) && decide (now.minutes ≤ s.callingHoursEnd)

/-- Modelled from the spec: a fragment of the time-zone database mapping a
settings.time_zone name to its offset east of UTC in minutes, needed because
the source has no time-zone handling at all. -/
def tzOffsetMinutes : String → Nat
  | "UTC" => 0
  | "Asia/Dubai" => 240
  | "Asia/Karachi" => 300
  | _ => 0

/-- Modelled from the spec: re-expressing a UTC instant in a zone a given
number of minutes east of UTC, wrapping weekday and time of day together. -/
def shiftNow (now : LocalNow) (off : Nat) : LocalNow :=
  let total := (now.weekday * 1440 + now.minutes + off) % (7 * 1440)
  { weekday := total / 1440, minutes := total % 1440 }

/-- Modelled from the spec: the Compliance Gate as the specification words
it, with now evaluated in settings.time_zone before the weekend and
calling-window checks. -/
def spec_calling_hours_compliant (s : CampaignSettings) (nowUtc : LocalNow) : Bool :=
  let lo := shiftNow nowUtc (tzOffsetMinutes s.timeZone)
  if s.excludeWeekends ∧ 5 ≤ lo.weekday then
    false
  else
    decide (s.callingHoursStart ≤ lo.minutes) && decide (lo.minutes ≤ s.callingHoursEnd)

/-- A call record (CallAttempt) as built by _make_campaign_call and mutated
by _monitor_call.  Timestamps are seconds; status is the free string taken
from the CallStatus enum values. -/
structure CallRecord where
  id : String
  campaignId : String
  contactPhone : String
  status : String
  startedAt : Option Nat
  endedAt : Option Nat
  duration : Option Nat
  endReason : Option String
  failureReason : Option String
  attempts : Nat
  vapiCallId : Option String
deriving DecidableEq

/-- One provider status-poll response, the output of _get_vapi_call_status:
the source reads ended, duration (default 0) and end_reason (default
"completed") with dict.get. -/
structure VapiCallStatus where
  ended : Bool
  duration : Option Nat
  endReason : Option String
deriving DecidableEq

/-- The timeout branch at the end of _monitor_call: a record that is not
already completed or failed is forced to failed with failure_reason
"Call timeout". -/
def timeout_force (r : CallRecord) (now : Nat) : CallRecord :=
  if r.status ≠ "completed" ∧ r.status ≠ "failed" then
    { r with status := "failed", endedAt := some now, failureReason := some "Call timeout" }
  else
    r

/-- The polling loop of _monitor_call: iteration i polls the provider (when
a provider call id is present); a report with ended = true sets the record
to completed unconditionally, copying duration and end reason with their
dict.get defaults, and stops polling; otherwise the loop sleeps 5 seconds
and continues; when the iteration budget derived from the timeout runs out,
the timeout branch fires.  poll is the provider collaborator, i the current
iteration, the last argument the remaining iterations. -/
def monitor_go (poll : Nat → VapiCallStatus) (start : Nat) (r : CallRecord) :
    Nat → Nat → CallRecord
  | i, 0 => timeout_force r (start + 5 * i)
  | i, n + 1 =>
      match r.vapiCallId with
      | none => monitor_go poll start r (i + 1) n
      | some _ =>
          let s := poll i
          if s.ended then
            { r with status := "completed"
                     endedAt := some (start + 5 * i)
                     duration := some (s.duration.getD 0)
                     endReason := some (s.endReason.getD "completed") }
          else
            monitor_go poll start r (i + 1) n

/-- Embedding of _monitor_call: run the polling loop for as many 5-second
iterations as fit into call_timeout_seconds. -/
def monitor_call (poll : Nat → VapiCallStatus) (start : Nat)
    (timeoutSeconds : Nat) (r : CallRecord) : CallRecord :=
  monitor_go poll start r 0 (timeoutSeconds / 5)

/-- Campaign-level statistics snapshot, matching the stats dict created by
create_campaign and recomputed by _calculate_campaign_stats. -/
structure CampaignStats where
  callsAttempted : Nat
  callsConnected : Nat
  callsCompleted : Nat
  callsFailed : Nat
  averageDuration : Nat
  conversionRate : Nat
deriving DecidableEq

/-- Embedding of the _calculate_campaign_stats stub in the source, which
returns all-zero counters for every campaign. -/
def calculate_campaign_stats (_campaignId : String) : CampaignStats :=
  { callsAttempted := 0
    callsConnected := 0
    callsCompleted := 0
    callsFailed := 0
    averageDuration := 0
    conversionRate := 0 }

/-- A campaign as stored by the manager; status is the free string taken
from the CampaignStatus enum values, timestamps are seconds. -/
structure Campaign where
  id : String
  userId : String
  name : String
  agentId : String
  status : String
  contacts : List Contact
  settings : CampaignSettings
  stats : CampaignStats
  createdAt : Nat
  startedAt : Option Nat
  pausedAt : Option Nat
  completedAt : Option Nat
deriving DecidableEq

/-- Result of stop_campaign: the source returns an error dict only when the
persistence lookup finds no campaign, and otherwise a success dict carrying
the recomputed final stats. -/
inductive StopResult
  | notFound
  | stopped (finalStats : CampaignStats)
deriving DecidableEq

/-- Embedding of stop_campaign.  The persistence lookup result is passed in
as lookup (the source delegates it to the stubbed _get_campaign collaborator).
The source performs no status check: it unconditionally sets
status = "completed", overwrites completed_at with the current time,
replaces stats with the aggregator output, and reports success. -/
def stop_campaign (lookup : Option Campaign) (now : Nat) :
    StopResult × Option Campaign :=
  match lookup with
  | none => (StopResult.notFound, none)
  | some c =>
      let stats := calculate_campaign_stats c.id
      let c2 := { c with status := "completed", completedAt := some now, stats := stats }
      (StopResult.stopped c2.stats, some c2)

/-- Result of start_campaign: not found, the invalid-status error, the
calling-hours error, or success. -/
inductive StartResult
  | notFound
  | invalidState (status : String)
  | complianceBlocked
  | started
deriving DecidableEq

/-- Embedding of start_campaign.  The persistence lookup result is passed in
as lookup; now is the server-local clock used by the compliance check and
nowTs the timestamp written to started_at.  The source checks membership of
the status in [draft, scheduled, paused], then the calling-hours gate, and
mutates the campaign only after both checks pass. -/
def start_campaign (lookup : Option Campaign) (now : LocalNow) (nowTs : Nat) :
    StartResult × Option Campaign :=
  match lookup with
  | none => (StartResult.notFound, none)
  | some c =>
      if c.status ∈ ["draft", "scheduled", "paused"] then
        if is_calling_hours_compliant c.settings now then
          (StartResult.started, some { c with status := "active", startedAt := some nowTs })
        else
          (StartResult.complianceBlocked, some c)
      else
        (StartResult.invalidState c.status, some c)

/-- The arguments of _log_call_attempt as invoked on the do-not-call branch
of _make_campaign_call. -/
structure DncLog where
  campaignId : String
  phone : String
  status : String
  reason : String
deriving DecidableEq

/-- Outcome of one _make_campaign_call task: the early returns (campaign
missing or not active, outside calling hours, do-not-call skip) and the path
that creates a call record. -/
inductive DialOutcome
  | skippedInactive
  | skippedHours
  | skippedDnc (log : DncLog)
  | dialed (record : CallRecord)
deriving DecidableEq

/-- Embedding of _make_campaign_call for one contact: lookup is the
active-campaigns entry, dnc the DNC-registry collaborator, place the
synchronous provider placement result (provider call id or error message),
poll the provider status collaborator consumed by the monitor.  The function
returns the outcome together with the contact as it stands afterwards; the
source never writes to the contact dict, so the contact comes back
unchanged on every path. -/
def make_campaign_call (lookup : Option Campaign) (contact : Contact)
    (now : LocalNow) (nowTs : Nat) (dnc : String → Bool) (callId : String)
    (place : Except String String) (poll : Nat → VapiCallStatus) :
    DialOutcome × Contact :=
  match lookup with
  | none => (DialOutcome.skippedInactive, contact)
  | some campaign =>
      if campaign.status ≠ "active" then
        (DialOutcome.skippedInactive, contact)
      else if ¬ is_calling_hours_compliant campaign.settings now then
        (DialOutcome.skippedHours, contact)
      else if campaign.settings.respectDoNotCall ∧ dnc contact.phone_number then
        (DialOutcome.skippedDnc
          { campaignId := campaign.id
            phone := contact.phone_number
            status := "failed"
            reason := "Do not call list" }, contact)
      else
        let rec0 : CallRecord :=
          { id := callId
            campaignId := campaign.id
            contactPhone := contact.phone_number
            status := "dialing"
            startedAt := some nowTs
            endedAt := none
            duration := none
            endReason := none
            failureReason := none
            attempts := contact.attempts + 1
            vapiCallId := none }
        match place with
        | Except.ok vapiId =>
            let rec1 := { rec0 with status := "connected", vapiCallId := some vapiId }
            (DialOutcome.dialed
              (monitor_call poll nowTs campaign.settings.callTimeoutSeconds rec1), contact)
        | Except.error msg =>
            (DialOutcome.dialed
              { rec0 with status := "failed", endedAt := some nowTs,
                          failureReason := some msg }, contact)

/-- Embedding of _get_pending_contacts: the contacts whose status string is
"pending". -/
def get_pending_contacts (contacts : List Contact) : List Contact :=
  contacts.filter (fun c => c.status = "pending")

/-- Phase of one per-contact task spawned by _execute_campaign, tracking its
position relative to the shared semaphore and its call record:
waiting = task created, semaphore not yet acquired;
holding = inside the semaphore block, before a call record exists (the
status, calling-hours and DNC checks happen here);
dialing = call record created with status "dialing";
connected = record moved to "connected" after successful placement;
finished = record reached a terminal status (completed or failed), still
inside the semaphore block;
exited = left the semaphore block (slot released). -/
inductive TaskPhase
  | waiting
  | holding
  | dialing
  | connected
  | finished
  | exited
deriving DecidableEq

/-- True for the phases whose call record has status dialing or connected:
the in-flight call attempts. -/
def isInFlight : TaskPhase → Bool
  | TaskPhase.dialing => true
  | TaskPhase.connected => true
  | _ => false

/-- True for the phases in which the task holds one of the semaphore
permits (everything between acquisition and release). -/
def holdsSlot : TaskPhase → Bool
  | TaskPhase.holding => true
  | TaskPhase.dialing => true
  | TaskPhase.connected => true
  | TaskPhase.finished => true
  | _ => false

/-- State of one _execute_campaign run: the semaphore bound
(settings.max_concurrent_calls), the number of currently available permits,
and the phase of each spawned per-contact task. -/
structure SchedState where
  maxConc : Nat
  avail : Nat
  tasks : List TaskPhase
deriving DecidableEq

/-- Number of call attempts of this run that are in flight
(status dialing or connected). -/
def inFlightCount (s : SchedState) : Nat :=
  s.tasks.countP isInFlight

/-- Number of tasks currently holding a semaphore permit. -/
def holderCount (s : SchedState) : Nat :=
  s.tasks.countP holdsSlot

/-- The state at the top of _execute_campaign: the semaphore is created with
max_concurrent_calls permits, all free, and one task per pending contact is
spawned, none of which has acquired a permit yet. -/
def initSched (maxConc nTasks : Nat) : SchedState :=
  { maxConc := maxConc, avail := maxConc, tasks := List.replicate nTasks TaskPhase.waiting }

/-- Small-step transitions of one _execute_campaign run, mirroring the
control flow of _make_campaign_call for each task:
acquire = enter the async-with semaphore block (needs a free permit);
skip = one of the early checks fails and the task returns, releasing the
permit without ever creating a call record;
startDial = store the call record with status "dialing";
connect = placement succeeded, record set to "connected";
placeFail = synchronous placement failure, record set to "failed";
endCall = the monitor drove the record to a terminal status;
release = leave the semaphore block, freeing the permit. -/
inductive SchedStep : SchedState → SchedState → Prop
  | acquire (s : SchedState) (i : Nat) (hi : i < s.tasks.length)
      (hw : s.tasks.get ⟨i, hi⟩ = TaskPhase.waiting) (ha : 0 < s.avail) :
      SchedStep s { s with avail := s.avail - 1, tasks := s.tasks.set i TaskPhase.holding }
  | skip (s : SchedState) (i : Nat) (hi : i < s.tasks.length)
      (hh : s.tasks.get ⟨i, hi⟩ = TaskPhase.holding) :
      SchedStep s { s with avail := s.avail + 1, tasks := s.tasks.set i TaskPhase.exited }
  | startDial (s : SchedState) (i : Nat) (hi : i < s.tasks.length)
      (hh : s.tasks.get ⟨i, hi⟩ = TaskPhase.holding) :
      SchedStep s { s with tasks := s.tasks.set i TaskPhase.dialing }
  | connect (s : SchedState) (i : Nat) (hi : i < s.tasks.length)
      (hd : s.tasks.get ⟨i, hi⟩ = TaskPhase.dialing) :
      SchedStep s { s with tasks := s.tasks.set i TaskPhase.connected }
  | placeFail (s : SchedState) (i : Nat) (hi : i < s.tasks.length)
      (hd : s.tasks.get ⟨i, hi⟩ = TaskPhase.dialing) :
      SchedStep s { s with tasks := s.tasks.set i TaskPhase.finished }
  | endCall (s : SchedState) (i : Nat) (hi : i < s.tasks.length)
      (hc : s.tasks.get ⟨i, hi⟩ = TaskPhase.connected) :
      SchedStep s { s with tasks := s.tasks.set i TaskPhase.finished }
  | release (s : SchedState) (i : Nat) (hi : i < s.tasks.length)
      (hf : s.tasks.get ⟨i, hi⟩ = TaskPhase.finished) :
      SchedStep s { s with avail := s.avail + 1, tasks := s.tasks.set i TaskPhase.exited }

/-- States reachable during one _execute_campaign run with semaphore bound
maxConc and nTasks spawned tasks. -/
inductive SchedReach (maxConc nTasks : Nat) : SchedState → Prop
  | init : SchedReach maxConc nTasks (initSched maxConc nTasks)
  | step {s t : SchedState} : SchedReach maxConc nTasks s → SchedStep s t →
      SchedReach maxConc nTasks t

/-- The semaphore invariant of one scheduler run: the stored bound is the
configured one, and every permit is either free or held by exactly one
task. -/
def SchedInv (maxConc : Nat) (s : SchedState) : Prop :=
  s.maxConc = maxConc ∧ s.avail + holderCount s = maxConc

/-- The default settings of the CampaignSettings dataclass (calling hours
09:00 to 17:00 as minutes since midnight). -/
def defaultSettings : CampaignSettings :=
  { maxConcurrentCalls := 5
    retryAttempts := 3
    retryDelayMinutes := 30
    callTimeoutSeconds := 300
    respectDoNotCall := true
    complianceMode := "standard"
    timeZone := "UTC"
    callingHoursStart := 540
    callingHoursEnd := 1020
    excludeWeekends := true }

/-- Every scheduler transition preserves the semaphore invariant: acquire
trades a free permit for a holder, release and the early-skip return trade a
holder back for a free permit, and the record-status transitions keep the
holder inside the semaphore block. -/
theorem schedStep_inv {maxConc : Nat} {s t : SchedState}
    (hs : SchedInv maxConc s) (hstep : SchedStep s t) : SchedInv maxConc t := by
  obtain ⟨hmax, hsum⟩ := hs
  cases hstep with
  | acquire i hi hw ha =>
      refine ⟨hmax, ?_⟩
      have hget : s.tasks[i] = TaskPhase.waiting := by
        simpa [List.get_eq_getElem] using hw
      have hb := List.boole_getElem_le_countP holdsSlot s.tasks i hi
      rw [hget] at hb
      rw [show (if holdsSlot TaskPhase.waiting = true then 1 else 0) = 0 from rfl] at hb
      have hcp := List.countP_set holdsSlot s.tasks i TaskPhase.holding hi
      rw [hget] at hcp
      rw [show (if holdsSlot TaskPhase.waiting = true then 1 else 0) = 0 from rfl,
          show (if holdsSlot TaskPhase.holding = true then 1 else 0) = 1 from rfl] at hcp
      simp only [holderCount] at hsum ⊢
      rw [hcp]
      omega
  | skip i hi hh =>
      refine ⟨hmax, ?_⟩
      have hget : s.tasks[i] = TaskPhase.holding := by
        simpa [List.get_eq_getElem] using hh
      have hb := List.boole_getElem_le_countP holdsSlot s.tasks i hi
      rw [hget] at hb
      rw [show (if holdsSlot TaskPhase.holding = true then 1 else 0) = 1 from rfl] at hb
      have hcp := List.countP_set holdsSlot s.tasks i TaskPhase.exited hi
      rw [hget] at hcp
      rw [show (if holdsSlot TaskPhase.holding = true then 1 else 0) = 1 from rfl,
          show (if holdsSlot TaskPhase.exited = true then 1 else 0) = 0 from rfl] at hcp
      simp only [holderCount] at hsum ⊢
      rw [hcp]
      omega
  | startDial i hi hh =>
      refine ⟨hmax, ?_⟩
      have hget : s.tasks[i] = TaskPhase.holding := by
        simpa [List.get_eq_getElem] using hh
      have hb := List.boole_getElem_le_countP holdsSlot s.tasks i hi
      rw [hget] at hb
      rw [show (if holdsSlot TaskPhase.holding = true then 1 else 0) = 1 from rfl] at hb
      have hcp := List.countP_set holdsSlot s.tasks i TaskPhase.dialing hi
      rw [hget] at hcp
      rw [show (if holdsSlot TaskPhase.holding = true then 1 else 0) = 1 from rfl,
          show (if holdsSlot TaskPhase.dialing = true then 1 else 0) = 1 from rfl] at hcp
      simp only [holderCount] at hsum ⊢
      rw [hcp]
      omega
  | connect i hi hd =>
      refine ⟨hmax, ?_⟩
      have hget : s.tasks[i] = TaskPhase.dialing := by
        simpa [List.get_eq_getElem] using hd
      have hb := List.boole_getElem_le_countP holdsSlot s.tasks i hi
      rw [hget] at hb
      rw [show (if holdsSlot TaskPhase.dialing = true then 1 else 0) = 1 from rfl] at hb
      have hcp := List.countP_set holdsSlot s.tasks i TaskPhase.connected hi
      rw [hget] at hcp
      rw [show (if holdsSlot TaskPhase.dialing = true then 1 else 0) = 1 from rfl,
          show (if holdsSlot TaskPhase.connected = true then 1 else 0) = 1 from rfl] at hcp
      simp only [holderCount] at hsum ⊢
      rw [hcp]
      omega
  | placeFail i hi hd =>
      refine ⟨hmax, ?_⟩
      have hget : s.tasks[i] = TaskPhase.dialing := by
        simpa [List.get_eq_getElem] using hd
      have hb := List.boole_getElem_le_countP holdsSlot s.tasks i hi
      rw [hget] at hb
      rw [show (if holdsSlot TaskPhase.dialing = true then 1 else 0) = 1 from rfl] at hb
      have hcp := List.countP_set holdsSlot s.tasks i TaskPhase.finished hi
      rw [hget] at hcp
      rw [show (if holdsSlot TaskPhase.dialing = true then 1 else 0) = 1 from rfl,
          show (if holdsSlot TaskPhase.finished = true then 1 else 0) = 1 from rfl] at hcp
      simp only [holderCount] at hsum ⊢
      rw [hcp]
      omega
  | endCall i hi hc =>
      refine ⟨hmax, ?_⟩
      have hget : s.tasks[i] = TaskPhase.connected := by
        simpa [List.get_eq_getElem] using hc
      have hb := List.boole_getElem_le_countP holdsSlot s.tasks i hi
      rw [hget] at hb
      rw [show (if holdsSlot TaskPhase.connected = true then 1 else 0) = 1 from rfl] at hb
      have hcp := List.countP_set holdsSlot s.tasks i TaskPhase.finished hi
      rw [hget] at hcp
      rw [show (if holdsSlot TaskPhase.connected = true then 1 else 0) = 1 from rfl,
          show (if holdsSlot TaskPhase.finished = true then 1 else 0) = 1 from rfl] at hcp
      simp only [holderCount] at hsum ⊢
      rw [hcp]
      omega
  | release i hi hf =>
      refine ⟨hmax, ?_⟩
      have hget : s.tasks[i] = TaskPhase.finished := by
        simpa [List.get_eq_getElem] using hf
      have hb := List.boole_getElem_le_countP holdsSlot s.tasks i hi
      rw [hget] at hb
      rw [show (if holdsSlot TaskPhase.finished = true then 1 else 0) = 1 from rfl] at hb
      have hcp := List.countP_set holdsSlot s.tasks i TaskPhase.exited hi
      rw [hget] at hcp
      rw [show (if holdsSlot TaskPhase.finished = true then 1 else 0) = 1 from rfl,
          show (if holdsSlot TaskPhase.exited = true then 1 else 0) = 0 from rfl] at hcp
      simp only [holderCount] at hsum ⊢
      rw [hcp]
      omega

/-- Every reachable state of a scheduler run satisfies the semaphore
invariant. -/
theorem schedReach_inv {maxConc nTasks : Nat} {s : SchedState}
    (h : SchedReach maxConc nTasks s) : SchedInv maxConc s := by
  induction h with
  | init =>
      refine ⟨rfl, ?_⟩
      simp [holderCount, initSched, List.countP_eq_zero, List.mem_replicate, holdsSlot]
  | step _ hstep ih => exact schedStep_inv ih hstep

/-- An in-flight task holds a semaphore permit, so the in-flight count is
bounded by the holder count. -/
theorem inFlight_le_holder (s : SchedState) : inFlightCount s ≤ holderCount s := by
  refine List.countP_mono_left ?_
  intro x _ hx
  cases x <;> simp_all [isInFlight, holdsSlot]

/-- Every contact produced by contact-list validation starts with
attempts = 0, status "pending", and a phone number that came out of the
normalizer. -/
theorem mem_process_contact_list {l : List RawContact} {c : Contact}
    (hc : c ∈ process_contact_list l) :
    c.attempts = 0 ∧ c.status = "pending" ∧
      ∃ q : String, clean_phone_number q = some c.phone_number := by
  rw [process_contact_list, List.mem_filterMap] at hc
  obtain ⟨a, -, ha⟩ := hc
  unfold processEntry at ha
  cases hpn : a.phone_number with
  | none => rw [hpn] at ha; exact absurd ha (by simp)
  | some q =>
      rw [hpn] at ha
      dsimp only at ha
      by_cases hq : q = ""
      · rw [if_pos hq] at ha; exact absurd ha (by simp)
      · rw [if_neg hq] at ha
        cases hcl : clean_phone_number q with
        | none => rw [hcl] at ha; exact absurd ha (by simp)
        | some ph =>
            rw [hcl] at ha
            have hc2 := Option.some.inj ha
            subst hc2
            exact ⟨rfl, rfl, q, hcl⟩

/-- Claim C2: during one scheduler run of an active campaign, every
reachable state has at most settings.max_concurrent_calls call attempts in
flight (record status dialing or connected): the semaphore invariant bounds
the permit holders, and every in-flight attempt belongs to a permit
holder. -/
theorem c2_inflight_at_most_max_concurrent (settings : CampaignSettings)
    (nTasks : Nat) (s : SchedState)
    (h : SchedReach settings.maxConcurrentCalls nTasks s) :
    inFlightCount s ≤ settings.maxConcurrentCalls := by
  obtain ⟨hmax, hsum⟩ := schedReach_inv h
  have h1 := inFlight_le_holder s
  omega

/-- Witness for C2 at a concrete run: default settings (bound 5), three
tasks, one acquire step taken. -/
theorem c2_inflight_at_most_max_concurrent_witness :
    inFlightCount
        { maxConc := 5, avail := 4,
          tasks := [TaskPhase.holding, TaskPhase.waiting, TaskPhase.waiting] }
      ≤ defaultSettings.maxConcurrentCalls := by
  refine c2_inflight_at_most_max_concurrent defaultSettings 3 _ ?_
  have h0 : SchedReach defaultSettings.maxConcurrentCalls 3 (initSched 5 3) :=
    SchedReach.init
  have hstep := SchedStep.acquire (initSched 5 3) 0 (by decide) (by decide) (by decide)
  exact SchedReach.step h0 hstep

/-- Claim C8: contact-list validation drops entries with a missing or empty
phone number, drops entries whose number fails normalization, maps a bare
10-digit number to "+1" plus the digits, keeps an 11-digit number starting
with 1 as "+" plus the digits, rejects every other digit count, and starts
every surviving contact with attempts = 0 and status = "pending". -/
theorem c8_contact_list_validation (raw : RawContact) (p : String)
    (l : List RawContact) (c : Contact) :
    (raw.phone_number = none → processEntry raw = none) ∧
    (raw.phone_number = some "" → processEntry raw = none) ∧
    (∀ q : String, raw.phone_number = some q → clean_phone_number q = none →
      processEntry raw = none) ∧
    ((digitsOf p).length = 10 →
      clean_phone_number p = some (String.mk ('+' :: '1' :: digitsOf p))) ∧
    ((digitsOf p).length = 11 → (digitsOf p).head? = some '1' →
      clean_phone_number p = some (String.mk ('+' :: digitsOf p))) ∧
    ((digitsOf p).length ≠ 10 → (digitsOf p).length ≠ 11 →
      clean_phone_number p = none) ∧
    (c ∈ process_contact_list l → c.attempts = 0 ∧ c.status = "pending") := by
  refine ⟨?_, ?_, ?_, ?_, ?_, ?_, ?_⟩
  · intro h; simp [processEntry, h]
  · intro h; simp [processEntry, h]
  · intro q hq hclean
    by_cases hq0 : q = "" <;> simp [processEntry, hq, hq0, hclean]
  · intro h10
    have hp : p ≠ "" := by
      intro he; rw [he] at h10; simp [digitsOf] at h10
    simp [clean_phone_number, hp, h10]
  · intro h11 hhead
    have hp : p ≠ "" := by
      intro he; rw [he] at h11; simp [digitsOf] at h11
    simp [clean_phone_number, hp, h11, hhead]
  · intro h10 h11
    by_cases hp : p = ""
    · simp [clean_phone_number, hp]
    · simp [clean_phone_number, hp, h10, h11]
  · intro hc
    exact ⟨(mem_process_contact_list hc).1, (mem_process_contact_list hc).2.1⟩

/-- An all-empty raw contact entry, used to instantiate witnesses. -/
def emptyRaw : RawContact :=
  { phone_number := none, name := none, email := none, custom_variables := none }

/-- A placeholder contact value, used to instantiate witnesses. -/
def emptyContact : Contact :=
  { phone_number := "", name := "", email := "", custom_variables := [],
    attempts := 0, last_attempt := none, status := "" }

/-- Witness for C8: a dashed US number is normalized, a 3-digit number is
dropped, and a missing phone number drops the entry. -/
theorem c8_contact_list_validation_witness :
    clean_phone_number "555-123-4567" = some "+15551234567" ∧
    clean_phone_number "123" = none ∧
    processEntry emptyRaw = none := by
  refine ⟨?_, ?_, ?_⟩
  · have h := (c8_contact_list_validation emptyRaw "555-123-4567" []
      emptyContact).2.2.2.1 (by decide)
    rw [h]; decide
  · exact (c8_contact_list_validation emptyRaw "123" []
      emptyContact).2.2.2.2.2.1 (by decide) (by decide)
  · exact (c8_contact_list_validation emptyRaw "" [] emptyContact).1 rfl

/-- Claim C10: the normalizer either rejects its input or returns the
character plus followed by exactly 11 digits starting with 1, and every
contact surviving validation has a phone_number of that shape. -/
theorem c10_normalized_phone_shape (s r : String) (l : List RawContact)
    (c : Contact) :
    (clean_phone_number s = some r →
      ∃ ds : List Char, r = String.mk ('+' :: ds) ∧ ds.length = 11 ∧
        ds.head? = some '1' ∧ ∀ ch ∈ ds, ch.isDigit = true) ∧
    (c ∈ process_contact_list l →
      ∃ ds : List Char, c.phone_number = String.mk ('+' :: ds) ∧ ds.length = 11 ∧
        ds.head? = some '1' ∧ ∀ ch ∈ ds, ch.isDigit = true) := by
  have hdig : ∀ t : String, ∀ ch ∈ digitsOf t, ch.isDigit = true := by
    intro t ch hch
    exact (List.mem_filter.mp hch).2
  have part1 : ∀ u v : String, clean_phone_number u = some v →
      ∃ ds : List Char, v = String.mk ('+' :: ds) ∧ ds.length = 11 ∧
        ds.head? = some '1' ∧ ∀ ch ∈ ds, ch.isDigit = true := by
    intro u v hr
    unfold clean_phone_number at hr
    by_cases hu : u = ""
    · rw [if_pos hu] at hr; exact absurd hr (by simp)
    · rw [if_neg hu] at hr
      by_cases h10 : (digitsOf u).length = 10
      · rw [if_pos h10] at hr
        refine ⟨'1' :: digitsOf u, (Option.some.inj hr).symm, by simp [h10], rfl, ?_⟩
        intro ch hch
        rcases List.mem_cons.mp hch with h | h
        · rw [h]; decide
        · exact hdig u ch h
      · rw [if_neg h10] at hr
        by_cases h11 : (digitsOf u).length = 11 ∧ (digitsOf u).head? = some '1'
        · rw [if_pos h11] at hr
          exact ⟨digitsOf u, (Option.some.inj hr).symm, h11.1, h11.2, hdig u⟩
        · rw [if_neg h11] at hr; exact absurd hr (by simp)
  refine ⟨part1 s r, ?_⟩
  intro hc
  obtain ⟨-, -, q, hq⟩ := mem_process_contact_list hc
  exact part1 q c.phone_number hq

/-- Witness for C10: the shape property instantiated on the normalization of
a dashed US number. -/
theorem c10_normalized_phone_shape_witness :
    ∃ ds : List Char, "+15551234567" = String.mk ('+' :: ds) ∧ ds.length = 11 ∧
      ds.head? = some '1' ∧ ∀ ch ∈ ds, ch.isDigit = true :=
  (c10_normalized_phone_shape "555-123-4567" "+15551234567" [] emptyContact).1
    (by decide)

/-- Claim C3: the per-contact dial task never writes back to the contact, so
the attempts counter of a validated contact stays at its creation value 0,
which is at most retry_attempts + 1 for every settings value; and only
contacts whose status is "pending" are ever handed to the dial task, so a
contact with status "done" or "exhausted" is never dialed. -/
theorem c3_attempts_bound_and_no_redial (lookup : Option Campaign)
    (contact : Contact) (now : LocalNow) (nowTs : Nat) (dnc : String → Bool)
    (callId : String) (place : Except String String)
    (poll : Nat → VapiCallStatus) (l : List Contact) (c : Contact)
    (raw : List RawContact) (s : CampaignSettings) :
    ((make_campaign_call lookup contact now nowTs dnc callId place poll).2
      = contact) ∧
    (c ∈ get_pending_contacts l →
      c.status = "pending" ∧ c.status ≠ "done" ∧ c.status ≠ "exhausted") ∧
    (c ∈ process_contact_list raw → c.attempts ≤ s.retryAttempts + 1) := by
  refine ⟨?_, ?_, ?_⟩
  · unfold make_campaign_call
    cases lookup with
    | none => rfl
    | some campaign =>
        cases place with
        | ok vapiId => dsimp only; split_ifs <;> rfl
        | error msg => dsimp only; split_ifs <;> rfl
  · intro hc
    rw [get_pending_contacts, List.mem_filter] at hc
    have hp : c.status = "pending" := by
      have := hc.2
      simpa using this
    refine ⟨hp, ?_, ?_⟩ <;> rw [hp] <;> decide
  · intro hc
    rw [(mem_process_contact_list hc).1]
    exact Nat.zero_le _

/-- Witness for C3: a validated pending contact is dialable, not terminal,
and within the attempts bound. -/
theorem c3_attempts_bound_and_no_redial_witness :
    ∃ c : Contact, c ∈ get_pending_contacts (process_contact_list
        [{ phone_number := some "555-123-4567", name := none, email := none,
           custom_variables := none }]) ∧
      c.status = "pending" ∧ c.status ≠ "done" ∧ c.status ≠ "exhausted" ∧
      c.attempts ≤ defaultSettings.retryAttempts + 1 := by
  have raw : List RawContact :=
    [{ phone_number := some "555-123-4567", name := none, email := none,
       custom_variables := none }]
  refine ⟨{ phone_number := "+15551234567", name := "", email := "",
            custom_variables := [], attempts := 0, last_attempt := none,
            status := "pending" }, by decide, ?_⟩
  have h := c3_attempts_bound_and_no_redial none emptyContact
    { weekday := 0, minutes := 600 } 0 (fun _ => false) "call-0"
    (Except.error "e") (fun _ => { ended := false, duration := none, endReason := none })
    (process_contact_list
      [{ phone_number := some "555-123-4567", name := none, email := none,
         custom_variables := none }])
    { phone_number := "+15551234567", name := "", email := "",
      custom_variables := [], attempts := 0, last_attempt := none,
      status := "pending" }
    [{ phone_number := some "555-123-4567", name := none, email := none,
       custom_variables := none }]
    defaultSettings
  obtain ⟨-, h2, h3⟩ := h
  have hmem := h2 (by decide)
  exact ⟨hmem.1, hmem.2.1, hmem.2.2, h3 (by decide)⟩

/-- A campaign that has already reached the terminal completed state, with
nonzero recorded stats and a recorded completion time. -/
def completedCampaign : Campaign :=
  { id := "camp-2", userId := "user-1", name := "done run", agentId := "agent-1",
    status := "completed", contacts := [], settings := defaultSettings,
    stats := { callsAttempted := 7, callsConnected := 3, callsCompleted := 2,
               callsFailed := 1, averageDuration := 30, conversionRate := 28 },
    createdAt := 10, startedAt := some 20, pausedAt := none,
    completedAt := some 100 }

/-- Claim C1 counterexample: stopping an already-completed campaign is not a
no-op returning an invalid-state error — the call reports success,
overwrites completed_at with the new time, and replaces the stats with a
fresh aggregation. -/
theorem c1_stop_counterexample :
    completedCampaign.status = "completed" ∧
    (stop_campaign (some completedCampaign) 200).1 ≠ StopResult.notFound ∧
    (stop_campaign (some completedCampaign) 200).2 ≠ some completedCampaign ∧
    (stop_campaign (some completedCampaign) 200).2.map Campaign.completedAt
      = some (some 200) ∧
    (stop_campaign (some completedCampaign) 200).2.map Campaign.stats
      ≠ some completedCampaign.stats := by
  decide

/-- Claim C1 (amended): stop_campaign performs no terminal-state check: for
every campaign the lookup finds — whatever its status, including an already
completed one — it reports success, sets status to "completed", overwrites
completed_at with the current time, and replaces stats with a fresh
aggregator run; the only failure is an unknown campaign. -/
theorem c1_stop_unconditional (c : Campaign) (now : Nat) :
    (stop_campaign (some c) now).1
      = StopResult.stopped (calculate_campaign_stats c.id) ∧
    (stop_campaign (some c) now).2
      = some { c with status := "completed", completedAt := some now,
                      stats := calculate_campaign_stats c.id } ∧
    (stop_campaign none now).1 = StopResult.notFound :=
  ⟨rfl, rfl, rfl⟩

/-- A server-local Monday 10:00, inside the default calling window. -/
def mondayTen : LocalNow := { weekday := 0, minutes := 600 }

/-- A server-local Saturday 10:00, hitting the weekend exclusion. -/
def saturdayTen : LocalNow := { weekday := 5, minutes := 600 }

/-- A server-local Monday 08:00, one hour before the default window. -/
def mondayEight : LocalNow := { weekday := 0, minutes := 480 }

/-- An active campaign whose settings respect the do-not-call registry. -/
def dncCampaign : Campaign :=
  { id := "camp-1", userId := "user-1", name := "dnc run", agentId := "agent-1",
    status := "active", contacts := [], settings := defaultSettings,
    stats := calculate_campaign_stats "camp-1", createdAt := 0,
    startedAt := some 0, pausedAt := none, completedAt := none }

/-- A pending contact with a normalized number, as the dialer sees it. -/
def dncContact : Contact :=
  { phone_number := "+15551234567", name := "", email := "",
    custom_variables := [], attempts := 0, last_attempt := none,
    status := "pending" }

/-- Claim C4 counterexample: with respect_do_not_call set and the registry
reporting the number listed, the dial task leaves the contact completely
unchanged — its status stays "pending" rather than being set to
"exhausted" — and the logged skip carries reason "Do not call list", not
"do not call". -/
theorem c4_dnc_counterexample :
    (make_campaign_call (some dncCampaign) dncContact mondayTen 0
        (fun _ => true) "call-1" (Except.error "never placed")
        (fun _ => { ended := false, duration := none, endReason := none })).2.status
      = "pending" ∧
    (make_campaign_call (some dncCampaign) dncContact mondayTen 0
        (fun _ => true) "call-1" (Except.error "never placed")
        (fun _ => { ended := false, duration := none, endReason := none })).2.status
      ≠ "exhausted" ∧
    (make_campaign_call (some dncCampaign) dncContact mondayTen 0
        (fun _ => true) "call-1" (Except.error "never placed")
        (fun _ => { ended := false, duration := none, endReason := none })).1
      = DialOutcome.skippedDnc
          { campaignId := "camp-1", phone := "+15551234567",
            status := "failed", reason := "Do not call list" } := by
  decide

/-- Claim C4 (amended): when respect_do_not_call is set and the registry
lists the number, the task returns before any call record is created: the
only effect is a log entry with status "failed" and reason
"Do not call list", and the contact comes back unchanged — its attempts
counter is not consumed and its status is not set to "exhausted". -/
theorem c4_dnc_skip_behavior (campaign : Campaign) (contact : Contact)
    (now : LocalNow) (nowTs : Nat) (dnc : String → Bool) (callId : String)
    (place : Except String String) (poll : Nat → VapiCallStatus)
    (hactive : campaign.status = "active")
    (hcomp : is_calling_hours_compliant campaign.settings now = true)
    (hdnc : campaign.settings.respectDoNotCall = true)
    (hlisted : dnc contact.phone_number = true) :
    make_campaign_call (some campaign) contact now nowTs dnc callId place poll
      = (DialOutcome.skippedDnc
          { campaignId := campaign.id, phone := contact.phone_number,
            status := "failed", reason := "Do not call list" }, contact) := by
  unfold make_campaign_call
  simp [hactive, hcomp, hdnc, hlisted]

/-- Witness for the amended C4 at a concrete campaign and contact. -/
theorem c4_dnc_skip_behavior_witness :
    make_campaign_call (some dncCampaign) dncContact mondayTen 0
        (fun _ => true) "call-1" (Except.error "never placed")
        (fun _ => { ended := false, duration := none, endReason := none })
      = (DialOutcome.skippedDnc
          { campaignId := "camp-1", phone := "+15551234567",
            status := "failed", reason := "Do not call list" }, dncContact) := by
  have h := c4_dnc_skip_behavior dncCampaign dncContact mondayTen 0
    (fun _ => true) "call-1" (Except.error "never placed")
    (fun _ => { ended := false, duration := none, endReason := none })
    (by decide) (by decide) (by decide) rfl
  exact h

/-- A connected call record under monitoring, carrying a provider id. -/
def connectedRecord : CallRecord :=
  { id := "call-9", campaignId := "camp-1", contactPhone := "+15551234567",
    status := "connected", startedAt := some 0, endedAt := none,
    duration := none, endReason := none, failureReason := none,
    attempts := 1, vapiCallId := some "vapi-9" }

/-- Modelled from the spec: the end-reason-to-status mapping the Call
Monitor section describes, every unmapped reason defaulting to failed. -/
def spec_map_end_reason : String → String
  | "completed" => "completed"
  | "no_answer" => "no_answer"
  | "busy" => "busy"
  | "voicemail" => "voicemail"
  | _ => "failed"

/-- Claim C5 counterexample: a provider report ending the call with reason
"busy" leaves the record with status "completed" — the monitor performs no
end-reason mapping, contradicting both the mapped value "busy" and the
unmapped default "failed". -/
theorem c5_no_mapping_counterexample :
    (monitor_go
        (fun _ => { ended := true, duration := some 42, endReason := some "busy" })
        0 connectedRecord 0 3).status = "completed" ∧
    (monitor_go
        (fun _ => { ended := true, duration := some 42, endReason := some "busy" })
        0 connectedRecord 0 3).status ≠ spec_map_end_reason "busy" ∧
    (monitor_go
        (fun _ => { ended := true, duration := some 42, endReason := some "busy" })
        0 connectedRecord 0 3).status ≠ "failed" ∧
    (monitor_go
        (fun _ => { ended := true, duration := some 42, endReason := some "busy" })
        0 connectedRecord 0 3).endReason = some "busy" := by
  decide

/-- Claim C5 (amended): on the first provider-reported end the monitor
copies the duration (default 0) and end reason (default "completed") into
the record and sets its status to "completed" unconditionally — the
provider's end-reason vocabulary is never mapped onto no_answer, busy,
voicemail or failed. -/
theorem c5_monitor_sets_completed (poll : Nat → VapiCallStatus) (start : Nat)
    (r : CallRecord) (v : String) (i n : Nat)
    (hv : r.vapiCallId = some v) (hend : (poll i).ended = true) :
    monitor_go poll start r i (n + 1)
      = { r with status := "completed", endedAt := some (start + 5 * i),
                 duration := some ((poll i).duration.getD 0),
                 endReason := some ((poll i).endReason.getD "completed") } := by
  unfold monitor_go
  rw [hv]
  simp [hend]

/-- Witness for the amended C5 on a concrete busy report. -/
theorem c5_monitor_sets_completed_witness :
    monitor_go
        (fun _ => { ended := true, duration := some 42, endReason := some "busy" })
        0 connectedRecord 0 3
      = { connectedRecord with status := "completed", endedAt := some 0,
                               duration := some 42, endReason := some "busy" } := by
  have h := c5_monitor_sets_completed
    (fun _ => { ended := true, duration := some 42, endReason := some "busy" })
    0 connectedRecord "vapi-9" 0 2 rfl rfl
  rw [h]
  rfl

/-- Claim C6 counterexample: when no poll reports an end within the budget,
the record is forced to "failed" with failure_reason "Call timeout" — not
the value "timeout" the claim states. -/
theorem c6_timeout_reason_counterexample :
    (monitor_go
        (fun _ => { ended := false, duration := none, endReason := none })
        0 connectedRecord 0 2).status = "failed" ∧
    (monitor_go
        (fun _ => { ended := false, duration := none, endReason := none })
        0 connectedRecord 0 2).failureReason = some "Call timeout" ∧
    (monitor_go
        (fun _ => { ended := false, duration := none, endReason := none })
        0 connectedRecord 0 2).failureReason ≠ some "timeout" := by
  decide

/-- Claim C6 (amended): if no poll within the timeout budget reports the
call ended, the monitor forces a record that is not already terminal to
"failed" with failure_reason "Call timeout"; a record already completed or
failed is left untouched; with the budget exhausted the poll source is
never consulted (so a late provider report cannot change the outcome); and
re-applying the timeout branch is idempotent. -/
theorem c6_timeout_forces_failed (poll poll2 : Nat → VapiCallStatus)
    (start : Nat) (r : CallRecord) (i n t1 t2 : Nat)
    (hnoend : ∀ j : Nat, (poll j).ended = false) :
    (monitor_go poll start r i n = timeout_force r (start + 5 * (i + n))) ∧
    (r.status ≠ "completed" → r.status ≠ "failed" →
      timeout_force r t1
        = { r with status := "failed", endedAt := some t1,
                   failureReason := some "Call timeout" }) ∧
    (monitor_go poll start r i 0 = monitor_go poll2 start r i 0) ∧
    (timeout_force (timeout_force r t1) t2 = timeout_force r t1) := by
  refine ⟨?_, ?_, rfl, ?_⟩
  · induction n generalizing i with
    | zero => simp [monitor_go]
    | succ n ih =>
        have harith : i + 1 + n = i + (n + 1) := by omega
        unfold monitor_go
        cases hv : r.vapiCallId with
        | none => rw [← harith]; exact ih (i + 1)
        | some v =>
            dsimp only
            rw [hnoend i]
            rw [if_neg (by simp)]
            rw [← harith]
            exact ih (i + 1)
  · intro h1 h2
    unfold timeout_force
    rw [if_pos ⟨h1, h2⟩]
  · by_cases h : r.status ≠ "completed" ∧ r.status ≠ "failed"
    · simp only [timeout_force, if_pos h]
      rw [if_neg (by simp)]
    · simp only [timeout_force, if_neg h, if_neg h]

/-- Witness for the amended C6: a connected record monitored against a
provider that never reports an end is failed with reason "Call timeout". -/
theorem c6_timeout_forces_failed_witness :
    monitor_go
        (fun _ => { ended := false, duration := none, endReason := none })
        0 connectedRecord 0 2
      = { connectedRecord with status := "failed", endedAt := some 10,
                               failureReason := some "Call timeout" } := by
  have h := c6_timeout_forces_failed
    (fun _ => { ended := false, duration := none, endReason := none })
    (fun _ => { ended := false, duration := none, endReason := none })
    0 connectedRecord 0 2 10 20 (fun _ => rfl)
  rw [h.1]
  exact h.2.1 (by decide) (by decide)

/-- Default settings pointed at a time zone four hours east of the server
clock. -/
def dubaiSettings : CampaignSettings :=
  { defaultSettings with timeZone := "Asia/Dubai" }

/-- Claim C7 counterexample: at server-local Monday 08:00 with a +4h
time_zone configured, the code gate refuses although evaluating the instant
in settings.time_zone (Monday 12:00 local) puts it inside the calling
window — the gate ignores the time zone. -/
theorem c7_timezone_ignored_counterexample :
    is_calling_hours_compliant dubaiSettings mondayEight = false ∧
    spec_calling_hours_compliant dubaiSettings mondayEight = true ∧
    is_calling_hours_compliant dubaiSettings mondayEight
      ≠ spec_calling_hours_compliant dubaiSettings mondayEight := by
  decide

/-- Claim C7 (amended): the compliance gate evaluates the server-local
clock and ignores settings.time_zone entirely: it is false whenever
exclude_weekends is set and the server-local day is Saturday or Sunday, and
otherwise true exactly when the server-local time of day lies between
calling_hours_start and calling_hours_end inclusive. -/
theorem c7_gate_server_local (s : CampaignSettings) (now : LocalNow)
    (tz : String) :
    (is_calling_hours_compliant { s with timeZone := tz } now
      = is_calling_hours_compliant s now) ∧
    (s.excludeWeekends = true → 5 ≤ now.weekday →
      is_calling_hours_compliant s now = false) ∧
    (¬ (s.excludeWeekends = true ∧ 5 ≤ now.weekday) →
      (is_calling_hours_compliant s now = true ↔
        s.callingHoursStart ≤ now.minutes ∧ now.minutes ≤ s.callingHoursEnd)) := by
  refine ⟨rfl, ?_, ?_⟩
  · intro h1 h2
    simp [is_calling_hours_compliant, h1, h2]
  · intro h
    simp [is_calling_hours_compliant, h]

/-- Witness for the amended C7: Saturday is refused under the default
settings, and the Monday decision reduces to the window test. -/
theorem c7_gate_server_local_witness :
    is_calling_hours_compliant defaultSettings saturdayTen = false ∧
    (is_calling_hours_compliant defaultSettings mondayTen = true ↔
      defaultSettings.callingHoursStart ≤ mondayTen.minutes ∧
        mondayTen.minutes ≤ defaultSettings.callingHoursEnd) :=
  ⟨(c7_gate_server_local defaultSettings saturdayTen "UTC").2.1 rfl (by decide),
   (c7_gate_server_local defaultSettings mondayTen "UTC").2.2 (by decide)⟩

/-- A freshly created draft campaign under the default settings. -/
def draftCampaign : Campaign :=
  { id := "camp-3", userId := "user-1", name := "new run", agentId := "agent-1",
    status := "draft", contacts := [dncContact], settings := defaultSettings,
    stats := calculate_campaign_stats "camp-3", createdAt := 0,
    startedAt := none, pausedAt := none, completedAt := none }

/-- Claim C9: start_campaign answers the invalid-status error for every
status outside draft/scheduled/paused, and the calling-hours error when the
status is startable but the compliance gate refuses; in both cases the
stored campaign is handed back completely unchanged. -/
theorem c9_start_guards (c : Campaign) (now : LocalNow) (nowTs : Nat) :
    (c.status ∉ (["draft", "scheduled", "paused"] : List String) →
      start_campaign (some c) now nowTs
        = (StartResult.invalidState c.status, some c)) ∧
    (c.status ∈ (["draft", "scheduled", "paused"] : List String) →
      is_calling_hours_compliant c.settings now = false →
      start_campaign (some c) now nowTs
        = (StartResult.complianceBlocked, some c)) := by
  constructor
  · intro h
    simp [start_campaign, h]
  · intro h hg
    simp [start_campaign, h, hg]

/-- Witness for C9: starting a completed campaign answers the
invalid-status error, and starting a draft campaign on a Saturday answers
the calling-hours error, both without mutating the campaign. -/
theorem c9_start_guards_witness :
    start_campaign (some completedCampaign) mondayTen 0
      = (StartResult.invalidState "completed", some completedCampaign) ∧
    start_campaign (some draftCampaign) saturdayTen 0
      = (StartResult.complianceBlocked, some draftCampaign) := by
  constructor
  · exact (c9_start_guards completedCampaign mondayTen 0).1 (by decide)
  · exact (c9_start_guards draftCampaign saturdayTen 0).2 (by decide) (by decide)

end Dialara
